import Mathlib

/-!
Verification development for the crypto-crawler-rs repository.

The Rust sources are shallowly embedded: pure functions become Lean
functions, the stateful parts of the WebSocket client become explicit
state passing over the client's channel set and ping counter, machine
floats on the exact-arithmetic paths (tick sizes, contract values,
order levels) are modelled by rationals, and fallible Rust code
returns an explicit outcome value distinguishing `Ok`, `Err` and a
panic (`unwrap` / `expect` / out-of-bounds indexing).
-/

set_option maxRecDepth 4000

/-- Outcome of running a piece of Rust code that may return
`Result::Err` (propagated with the question-mark operator) or panic
(`unwrap`, `expect`, slice indexing out of bounds). -/
inductive ROut (α : Type) where
  | ok (a : α)
  | err (e : String)
  | panicked (msg : String)
  deriving DecidableEq, Repr

/-- `MarketType` from the crypto-market-type crate, as listed in the
spec's data model. -/
inductive MarketType where
  | Spot
  | LinearFuture
  | InverseFuture
  | LinearSwap
  | InverseSwap
  | QuantoFuture
  | QuantoSwap
  | EuropeanOption
  | Unknown
  deriving DecidableEq, Repr

/-- `MessageType` from the crypto-msg-type crate, as listed in the
spec's data model. -/
inductive MessageType where
  | Trade
  | L2Event
  | L2Snapshot
  | L2TopK
  | L3Event
  | L3Snapshot
  | BBO
  | Ticker
  | FundingRate
  | Candlestick
  | OpenInterest
  deriving DecidableEq, Repr

/-- `TradeSide` from crypto-msg-parser. -/
inductive TradeSide where
  | Buy
  | Sell
  deriving DecidableEq, Repr

namespace WSClient

/-!
Embedding of `WSClientInternal` (crypto-ws-client/src/clients/ws_client_internal.rs).

The client's `channels: Mutex<HashSet<String>>` field is modelled as a
`Finset String`; the mutex disappears because each operation is
modelled as a pure state transformer executed atomically (the Rust
code holds the lock for the whole diff computation).  The wire
commands actually written to the socket by an operation are returned
alongside the new state.
-/

/-- The loop body of `subscribe_or_unsubscribe` lines 104-110: for each
requested channel, `HashSet::insert` is called; when it returns `true`
(the channel was not yet present) the channel is appended to `diff`.
Both the subscribe and the unsubscribe path execute this same
insertion loop. -/
def channelDiff (st : Finset String) (channels : List String) :
    Finset String × List String :=
  channels.foldl
    (fun p ch => if ch ∈ p.1 then p else (insert ch p.1, p.2 ++ [ch]))
    (st, [])

/-- `WSClientInternal::subscribe_or_unsubscribe`: compute the diff of
the requested channels against the channel set, and when the diff is
non-empty translate it with `channels_to_commands` and write every
resulting command to the socket.  Returns the new channel set and the
list of wire commands written. -/
def subscribe_or_unsubscribe (c2c : List String → Bool → List String)
    (st : Finset String) (channels : List String) (subscribe : Bool) :
    Finset String × List String :=
  let p := channelDiff st channels
  (p.1, if p.2.isEmpty then [] else c2c p.2 subscribe)

/-- `WSClientInternal::subscribe`. -/
def subscribe (c2c : List String → Bool → List String)
    (st : Finset String) (channels : List String) :
    Finset String × List String :=
  subscribe_or_unsubscribe c2c st channels true

/-- `WSClientInternal::unsubscribe`. -/
def unsubscribe (c2c : List String → Bool → List String)
    (st : Finset String) (channels : List String) :
    Finset String × List String :=
  subscribe_or_unsubscribe c2c st channels false

/-- Classification of one incoming event seen by one iteration of
`WSClientInternal::run` with respect to the ping counter: either a
message classified as `Pong` (a pong frame, or `MiscMessage::Pong`
from `on_misc_msg`), or anything else. -/
inductive InMsg where
  | pong
  | other
  deriving DecidableEq, Repr

/-- The ping-liveness state carried across iterations of `run` in
client-ping mode: the `num_unanswered_ping` atomic and whether the
loop has exited through the `num_unanswered_ping > 5` check. -/
structure PingState where
  num_unanswered_ping : Int
  exited : Bool
  deriving DecidableEq, Repr

/-- One iteration of the `run` loop (client-ping mode), restricted to
its effect on `num_unanswered_ping`:

* `handle_msg` / the pong-frame arm store `0` into the counter when
  the message is classified as `Pong` (lines 175 and 269); every other
  message leaves the counter untouched;
* after handling the message the loop loads the counter and exits the
  process when it is greater than 5 (lines 367-376);
* otherwise, when the ping interval has elapsed (`pingDue`), the loop
  writes the configured ping payload (lines 377-389); this write does
  not modify `num_unanswered_ping` — no code path in
  ws_client_internal.rs increments the counter. -/
def runIter (s : PingState) (msg : InMsg) (_pingDue : Bool) : PingState :=
  if s.exited then s
  else
    let c : Int := match msg with
      | .pong => 0
      | .other => s.num_unanswered_ping
    if 5 < c then { num_unanswered_ping := c, exited := true }
    else
      -- the ping send (when `pingDue` is true) touches only
      -- `last_ping_timestamp` and the socket, not the counter
      { num_unanswered_ping := c, exited := false }

/-- Iterating the `run` loop over a trace of (incoming message,
ping-due flag) pairs, starting from a given ping state. -/
def runTrace (s : PingState) (tr : List (InMsg × Bool)) : PingState :=
  tr.foldl (fun s e => runIter s e.1 e.2) s

/-- The initial ping state of a fresh client:
`num_unanswered_ping: AtomicIsize::new(0)` and the loop running. -/
def initPingState : PingState :=
  { num_unanswered_ping := 0, exited := false }

end WSClient

namespace OrderSerde

/-!
Embedding of `Order` and its serde instances
(crypto-msg-parser/src/order.rs).  JSON numbers are modelled as
rationals (the claims restrict attention to finite values), and the
wire form of an order — a JSON array of numbers — as a `List ℚ`.
-/

/-- `Order`: one level of an order book. -/
structure Order where
  price : ℚ
  quantity_base : ℚ
  quantity_quote : ℚ
  quantity_contract : Option ℚ
  deriving DecidableEq, Repr

/-- `impl Serialize for Order`: a sequence of length 3, or of length 4
when `quantity_contract` is present. -/
def serialize (o : Order) : List ℚ :=
  [o.price, o.quantity_base, o.quantity_quote] ++
    (match o.quantity_contract with
     | some qc => [qc]
     | none => [])

/-- `OrderVisitor::visit_seq` as invoked by
`impl Deserialize for Order`: collect every number of the input
sequence into `vec`, then index `vec[0]`, `vec[1]`, `vec[2]` and — when
the length is exactly 4 — `vec[3]`.  Indexing out of bounds is a
panic, not a serde error. -/
def deserialize (vec : List ℚ) : ROut Order :=
  if h : 2 < vec.length then
    ROut.ok
      { price := vec.get ⟨0, by omega⟩
        quantity_base := vec.get ⟨1, by omega⟩
        quantity_quote := vec.get ⟨2, by omega⟩
        quantity_contract :=
          if h4 : vec.length = 4 then some (vec.get ⟨3, by omega⟩)
          else none }
  else
    ROut.panicked "index out of bounds: the len is less than 3"

end OrderSerde

namespace ContractValue

/-!
Embedding of `get_contract_value` for gate
(crypto-contract-value/src/exchanges/gate.rs, lines 281-289) and okex
(crypto-contract-value/src/exchanges/okex.rs, lines 208-218).

The `CONTRACT_VALUES` tables are lazily initialised from an offline
snapshot merged with an HTTP fetch; the tables are passed here as a
parameter.  Indexing a `HashMap` with `[..]` panics when the key is
absent.
-/

/-- gate `get_contract_value`. -/
def gate_get_contract_value
    (contractValues : MarketType → String → Option ℚ)
    (market_type : MarketType) (pair : String) : ROut (Option ℚ) :=
  match market_type with
  | .InverseSwap | .InverseFuture => ROut.ok (some 1)
  | .LinearSwap | .LinearFuture =>
      match contractValues market_type pair with
      | some v => ROut.ok (some v)
      | none => ROut.panicked "key not found in CONTRACT_VALUES"
  | _ => ROut.ok none

/-- Rust `pair.starts_with("BTC")` (character-list model). -/
def startsWithBTC (pair : String) : Bool :=
  "BTC".data.isPrefixOf pair.data

/-- okex `get_contract_value`. -/
def okex_get_contract_value
    (contractValues : MarketType → String → Option ℚ)
    (market_type : MarketType) (pair : String) : ROut (Option ℚ) :=
  match market_type with
  | .InverseSwap | .InverseFuture =>
      ROut.ok (some (if startsWithBTC pair then 100 else 10))
  | .LinearSwap | .LinearFuture | .EuropeanOption =>
      match contractValues market_type pair with
      | some v => ROut.ok (some v)
      | none => ROut.panicked "key not found in CONTRACT_VALUES"
  | _ => ROut.ok none

end ContractValue

namespace StringOps

/-!
Character-list models of the byte-level string primitives used by the
Rust sources.  The exchange symbols involved are ASCII, so Rust's byte
indexing coincides with character indexing.
-/

/-- Rust `str::ends_with`. -/
def endsWithL (s suf : List Char) : Bool :=
  suf.length ≤ s.length && s.drop (s.length - suf.length) == suf

/-- Rust `str::strip_suffix` after a successful `ends_with` test:
drop the suffix. -/
def dropSuffixL (s suf : List Char) : List Char :=
  s.take (s.length - suf.length)

/-- Rust `&s[(s.len() - n)..]`: the last `n` characters. -/
def lastN (s : List Char) (n : Nat) : List Char :=
  s.drop (s.length - n)

/-- The numeric value of a run of characters, `none` as soon as a
non-digit appears or the run is empty. -/
def parseDigits (l : List Char) : Option Nat :=
  if l.isEmpty then none
  else
    l.foldl
      (fun acc c =>
        acc.bind fun n =>
          if c.isDigit then some (n * 10 + (c.toNat - 48)) else none)
      (some 0)

/-- Whether Rust `str::parse::<i64>()` succeeds on `s`: an optional
sign followed by at least one digit, with the value in range. -/
def i64_parse_ok (s : List Char) : Bool :=
  match s with
  | '+' :: rest =>
      match parseDigits rest with
      | some n => decide (n ≤ 2 ^ 63 - 1)
      | none => false
  | '-' :: rest =>
      match parseDigits rest with
      | some n => decide (n ≤ 2 ^ 63)
      | none => false
  | _ =>
      match parseDigits s with
      | some n => decide (n ≤ 2 ^ 63 - 1)
      | none => false

end StringOps

namespace Deribit

open StringOps

/-!
Embedding of `normalize_pair` (crypto-pair/src/exchanges/deribit.rs).
`symbol.find('-').unwrap()` panics when the symbol contains no dash.
-/

/-- Rust `str::find('-')`: index of the first dash. -/
def findDashIdx : List Char → Option Nat
  | [] => none
  | c :: rest => if c = '-' then some 0 else (findDashIdx rest).map (· + 1)

/-- deribit `normalize_pair`. -/
def normalize_pair (symbol : String) : ROut (Option String) :=
  let s := symbol.data
  if endsWithL s "-PERPETUAL".data then
    -- inverse_swap
    ROut.ok (some (String.mk (dropSuffixL s "-PERPETUAL".data) ++ "/USD"))
  else if 7 < s.length && i64_parse_ok (lastN s 2) then
    -- inverse_future
    match findDashIdx s with
    | some pos => ROut.ok (some (String.mk (s.take pos) ++ "/USD"))
    | none => ROut.panicked "called Option::unwrap() on a None value"
  else if endsWithL s "-P".data || endsWithL s "-C".data then
    -- option
    match findDashIdx s with
    | some pos =>
        ROut.ok (some (String.mk (s.take pos) ++ "/" ++ String.mk (s.take pos)))
    | none => ROut.panicked "called Option::unwrap() on a None value"
  else
    ROut.ok none

end Deribit

namespace Bitmex

/-!
Embedding of `id_to_price` and `price_to_id`
(crypto-msg-parser/src/exchanges/bitmex.rs, lines 566-583) over the
compiled-in `SYMBOL_INDEX_AND_TICK_SIZE_MAP` table (lines 16-357).
The `f64` tick sizes are decimal literals in the source; each literal
is transcribed exactly as its digit string `mant` together with the
number `exp10` of digits after the decimal point, denoting the
rational `mant / 10 ^ exp10` (so `0.01` is `(1, 2)`, `2.5` is
`(25, 1)`, `100.0` is `(1000, 1)`).  The best-effort online refresh
of the table (`fetch_tick_sizes`) degrades to the offline table when
the network is unavailable and is not modelled.
-/

/-- The rational denoted by a decimal tick-size literal. -/
def tickOf (mant exp10 : Nat) : ℚ :=
  (mant : ℚ) / 10 ^ exp10

/-- The compiled-in symbol table:
`symbol -> (index, tick mantissa, tick exponent)`. -/
def SYMBOL_INDEX_AND_TICK_SIZE_MAP : List (String × Nat × Nat × Nat) := [
    ("A50G16", 65, 25, 1),
    ("A50H16", 67, 25, 1),
    ("A50J16", 72, 25, 1),
    ("A50K16", 73, 25, 1),
    ("A50M16", 99, 25, 1),
    ("A50N16", 120, 25, 1),
    ("A50Q16", 124, 25, 1),
    ("AAVEUSDT", 589, 1, 2),
    ("ADAF18", 260, 1, 8),
    ("ADAH18", 267, 1, 8),
    ("ADAH19", 323, 1, 8),
    ("ADAH20", 366, 1, 8),
    ("ADAH21", 459, 1, 8),
    ("ADAM18", 271, 1, 8),
    ("ADAM19", 331, 1, 8),
    ("ADAM20", 383, 1, 8),
    ("ADAM21", 523, 1, 8),
    ("ADAU18", 286, 1, 8),
    ("ADAU19", 339, 1, 8),
    ("ADAU20", 398, 1, 8),
    ("ADAU21", 570, 1, 8),
    ("ADAUSD", 676, 1, 4),
    ("ADAUSDT", 521, 1, 5),
    ("ADAUSDTH21", 463, 1, 5),
    ("ADAUSDTZ20", 431, 1, 5),
    ("ADAZ18", 303, 1, 8),
    ("ADAZ19", 349, 1, 8),
    ("ADAZ20", 427, 1, 8),
    ("ADAZ21", 638, 1, 8),
    ("ALTMEXUSD", 616, 1, 2),
    ("AVAXUSD", 675, 1, 3),
    ("AXSUSD", 706, 1, 2),
    ("AXSUSDT", 625, 1, 3),
    ("BCHF18", 256, 1, 4),
    ("BCHH18", 266, 1, 4),
    ("BCHH19", 322, 1, 4),
    ("BCHH20", 365, 1, 5),
    ("BCHH21", 458, 1, 5),
    ("BCHM18", 272, 1, 4),
    ("BCHM19", 330, 1, 5),
    ("BCHM20", 382, 1, 5),
    ("BCHM21", 524, 1, 5),
    ("BCHU18", 285, 1, 4),
    ("BCHU19", 338, 1, 5),
    ("BCHU20", 397, 1, 5),
    ("BCHU21", 569, 1, 6),
    ("BCHUSD", 402, 5, 2),
    ("BCHX17", 239, 1, 4),
    ("BCHZ17", 240, 1, 4),
    ("BCHZ18", 302, 1, 4),
    ("BCHZ19", 348, 1, 5),
    ("BCHZ20", 426, 1, 5),
    ("BCHZ21", 637, 1, 6),
    ("BFXQ16", 128, 1, 4),
    ("BFXU16", 132, 1, 4),
    ("BFXV16", 136, 1, 4),
    ("BNBUSD", 678, 1, 2),
    ("BNBUSDT", 542, 1, 2),
    ("BNBUSDTH21", 467, 5, 4),
    ("BNBUSDTZ20", 451, 5, 4),
    ("BVOL24H", 34, 1, 2),
    ("BVOL7D", 36, 1, 2),
    ("BVOLG15", 18, 1, 2),
    ("BVOLH15", 23, 1, 2),
    ("BVOLJ15", 25, 1, 2),
    ("B_BLOCKSZ17", 180, 1, 2),
    ("B_SEGWITZ17", 181, 1, 2),
    ("COIN_BH17", 164, 1, 2),
    ("DAOETH", 94, 1, 5),
    ("DASH7D", 165, 1, 6),
    ("DASHH18", 252, 1, 6),
    ("DASHJ17", 178, 1, 6),
    ("DASHM17", 186, 1, 6),
    ("DASHU17", 209, 1, 6),
    ("DASHZ17", 225, 1, 6),
    ("DEFIMEXUSD", 617, 1, 2),
    ("DOGEUSD", 677, 1, 5),
    ("DOGEUSDT", 476, 1, 5),
    ("DOTUSD", 679, 1, 3),
    ("DOTUSDT", 519, 5, 4),
    ("DOTUSDTH21", 469, 5, 4),
    ("DOTUSDTZ20", 453, 5, 4),
    ("EOSH19", 324, 1, 7),
    ("EOSH20", 367, 1, 7),
    ("EOSH21", 460, 1, 7),
    ("EOSM18", 279, 1, 7),
    ("EOSM19", 332, 1, 7),
    ("EOSM20", 384, 1, 7),
    ("EOSM21", 525, 1, 7),
    ("EOSN17", 216, 1, 6),
    ("EOSU18", 287, 1, 7),
    ("EOSU19", 340, 1, 7),
    ("EOSU20", 399, 1, 7),
    ("EOSU21", 571, 1, 8),
    ("EOSUSD", 707, 1, 4),
    ("EOSUSDT", 539, 5, 4),
    ("EOSUSDTH21", 464, 5, 4),
    ("EOSUSDTZ20", 432, 5, 4),
    ("EOSZ18", 304, 1, 7),
    ("EOSZ19", 350, 1, 7),
    ("EOSZ20", 428, 1, 7),
    ("EOSZ21", 639, 1, 8),
    ("ETC24H", 123, 1, 6),
    ("ETC7D", 125, 1, 6),
    ("ETH7D", 54, 1, 5),
    ("ETHH18", 251, 1, 5),
    ("ETHH19", 319, 1, 5),
    ("ETHH20", 362, 1, 5),
    ("ETHH21", 455, 1, 5),
    ("ETHJ17", 177, 1, 5),
    ("ETHM17", 185, 1, 5),
    ("ETHM18", 273, 1, 5),
    ("ETHM19", 327, 1, 5),
    ("ETHM20", 379, 1, 5),
    ("ETHM21", 526, 1, 5),
    ("ETHU17", 208, 1, 5),
    ("ETHU18", 282, 1, 5),
    ("ETHU19", 335, 1, 5),
    ("ETHU20", 394, 1, 5),
    ("ETHU21", 566, 1, 5),
    ("ETHUSD", 297, 5, 2),
    ("ETHUSDH21", 462, 5, 2),
    ("ETHUSDM20", 386, 5, 2),
    ("ETHUSDM21", 527, 5, 2),
    ("ETHUSDU20", 401, 5, 2),
    ("ETHUSDU21", 573, 5, 2),
    ("ETHUSDZ20", 430, 5, 2),
    ("ETHUSDZ21", 641, 5, 2),
    ("ETHXBT", 78, 1, 5),
    ("ETHZ17", 224, 1, 5),
    ("ETHZ18", 299, 1, 5),
    ("ETHZ19", 345, 1, 5),
    ("ETHZ20", 423, 1, 5),
    ("ETHZ21", 634, 1, 5),
    ("FCT7D", 70, 1, 6),
    ("FCTM17", 190, 1, 6),
    ("FCTXBT", 93, 1, 6),
    ("FILUSDT", 556, 1, 2),
    ("GNOM17", 184, 1, 6),
    ("LINKUSD", 708, 1, 3),
    ("LINKUSDT", 441, 5, 4),
    ("LINKUSDTH21", 465, 5, 4),
    ("LINKUSDTM21", 528, 5, 4),
    ("LINKUSDTZ20", 433, 5, 4),
    ("LSKXBT", 98, 1, 6),
    ("LTC7D", 150, 1, 5),
    ("LTCH18", 254, 1, 5),
    ("LTCH19", 320, 1, 5),
    ("LTCH20", 363, 5, 6),
    ("LTCH21", 456, 5, 6),
    ("LTCM17", 188, 1, 5),
    ("LTCM18", 274, 1, 5),
    ("LTCM19", 328, 5, 6),
    ("LTCM20", 380, 5, 6),
    ("LTCM21", 529, 5, 6),
    ("LTCU17", 211, 1, 5),
    ("LTCU18", 283, 1, 5),
    ("LTCU19", 336, 5, 6),
    ("LTCU20", 395, 5, 6),
    ("LTCU21", 567, 1, 6),
    ("LTCUSD", 407, 1, 2),
    ("LTCXBT", 85, 1, 5),
    ("LTCZ17", 227, 1, 5),
    ("LTCZ18", 300, 1, 5),
    ("LTCZ19", 346, 5, 6),
    ("LTCZ20", 424, 5, 6),
    ("LTCZ21", 635, 1, 6),
    ("LUNAUSD", 649, 1, 3),
    ("MATICUSDT", 588, 1, 4),
    ("NEOG18", 269, 1, 6),
    ("NEOH18", 270, 1, 6),
    ("QTUMU17", 195, 1, 6),
    ("REP7D", 144, 1, 6),
    ("SNTN17", 202, 1, 8),
    ("SOLUSD", 709, 1, 2),
    ("SOLUSDT", 549, 1, 3),
    ("SRMUSDT", 632, 1, 3),
    ("SUSHIUSDT", 618, 1, 3),
    ("TRXH19", 325, 1, 8),
    ("TRXH20", 368, 1, 8),
    ("TRXH21", 461, 1, 8),
    ("TRXM19", 333, 1, 8),
    ("TRXM20", 385, 1, 8),
    ("TRXM21", 530, 1, 8),
    ("TRXU18", 290, 1, 8),
    ("TRXU19", 341, 1, 8),
    ("TRXU20", 400, 1, 8),
    ("TRXU21", 572, 1, 10),
    ("TRXUSDT", 540, 1, 5),
    ("TRXZ18", 305, 1, 8),
    ("TRXZ19", 351, 1, 8),
    ("TRXZ20", 429, 1, 8),
    ("TRXZ21", 640, 1, 10),
    ("UNIUSDT", 520, 1, 3),
    ("VETUSDT", 581, 1, 5),
    ("WINZ16", 156, 1, 6),
    ("XBCH17", 158, 1, 1),
    ("XBCM17", 174, 1, 1),
    ("XBCZ16", 155, 1, 1),
    ("XBJ24H", 106, 10, 1),
    ("XBJ7D", 137, 10, 1),
    ("XBJH17", 167, 10, 1),
    ("XBJM17", 175, 10, 1),
    ("XBJU17", 206, 10, 1),
    ("XBJZ16", 138, 10, 1),
    ("XBJZ17", 230, 1000, 1),
    ("XBT24H", 58, 1, 2),
    ("XBT48H", 66, 1, 2),
    ("XBT7D", 51, 1, 2),
    ("XBT7D_D90", 278, 1, 5),
    ("XBT7D_D95", 281, 1, 5),
    ("XBT7D_U105", 280, 1, 5),
    ("XBT7D_U110", 277, 1, 5),
    ("XBTEUR", 564, 5, 1),
    ("XBTEURU21", 574, 5, 1),
    ("XBTEURZ21", 642, 5, 1),
    ("XBTF15", 1, 1, 2),
    ("XBTF15_G15", 13, 1, 2),
    ("XBTF15_H15", 4, 1, 2),
    ("XBTG15", 12, 1, 2),
    ("XBTH15", 3, 1, 2),
    ("XBTH15_G15", 14, 1, 2),
    ("XBTH16", 55, 1, 2),
    ("XBTH17", 157, 1, 2),
    ("XBTH18", 249, 5, 1),
    ("XBTH19", 298, 5, 1),
    ("XBTH20", 344, 5, 1),
    ("XBTH21", 422, 5, 1),
    ("XBTH22", 633, 5, 1),
    ("XBTJ15", 26, 1, 2),
    ("XBTK15", 27, 1, 2),
    ("XBTK15_M15", 30, 1, 2),
    ("XBTM15", 29, 1, 2),
    ("XBTM15_U15", 40, 1, 2),
    ("XBTM15_Z15", 42, 1, 2),
    ("XBTM16", 62, 1, 2),
    ("XBTM17", 173, 1, 1),
    ("XBTM18", 259, 5, 1),
    ("XBTM19", 318, 5, 1),
    ("XBTM20", 361, 5, 1),
    ("XBTM21", 454, 5, 1),
    ("XBTN15", 44, 1, 2),
    ("XBTQ15", 46, 1, 2),
    ("XBTU15", 39, 1, 2),
    ("XBTU15_Z15", 43, 1, 2),
    ("XBTU16", 71, 1, 2),
    ("XBTU17", 205, 1, 1),
    ("XBTU18", 276, 5, 1),
    ("XBTU19", 326, 5, 1),
    ("XBTU20", 378, 5, 1),
    ("XBTU21", 532, 5, 1),
    ("XBTUSD", 88, 1, 2),
    ("XBTV15", 56, 1, 2),
    ("XBTV21", 650, 5, 1),
    ("XBTX21", 705, 5, 1),
    ("XBTZ14", 0, 1, 2),
    ("XBTZ14_F15", 2, 1, 2),
    ("XBTZ14_H15", 11, 1, 2),
    ("XBTZ15", 41, 1, 2),
    ("XBTZ16", 149, 1, 2),
    ("XBTZ17", 229, 5, 1),
    ("XBTZ18", 291, 5, 1),
    ("XBTZ19", 334, 5, 1),
    ("XBTZ20", 393, 5, 1),
    ("XBTZ21", 565, 5, 1),
    ("XBU24H", 22, 1, 2),
    ("XBU7D", 63, 1, 2),
    ("XBUH15", 6, 1, 2),
    ("XBUH15_M15", 10, 1, 2),
    ("XBUH15_U15", 16, 1, 2),
    ("XBUJ15", 24, 1, 2),
    ("XBUK15", 28, 1, 2),
    ("XBUM15", 8, 1, 2),
    ("XBUM15_U15", 17, 1, 2),
    ("XBUN15", 45, 1, 2),
    ("XBUQ15", 47, 1, 2),
    ("XBUU15", 15, 1, 2),
    ("XBUU15_Z15", 38, 1, 2),
    ("XBUV15", 57, 1, 2),
    ("XBUZ14", 5, 1, 2),
    ("XBUZ14_H15", 7, 1, 2),
    ("XBUZ14_M15", 9, 1, 2),
    ("XBUZ15", 37, 1, 2),
    ("XLMF18", 265, 1, 8),
    ("XLMH18", 268, 1, 8),
    ("XLMUSDT", 522, 1, 5),
    ("XLT7D", 50, 1, 3),
    ("XMR7D", 131, 1, 6),
    ("XMRH18", 253, 1, 6),
    ("XMRJ17", 179, 1, 6),
    ("XMRM17", 187, 1, 6),
    ("XMRU17", 210, 1, 6),
    ("XMRZ17", 226, 1, 6),
    ("XRP7D", 143, 1, 8),
    ("XRPH18", 255, 1, 8),
    ("XRPH19", 321, 1, 8),
    ("XRPH20", 364, 1, 8),
    ("XRPH21", 457, 1, 8),
    ("XRPM17", 189, 1, 8),
    ("XRPM18", 275, 1, 8),
    ("XRPM19", 329, 1, 8),
    ("XRPM20", 381, 1, 8),
    ("XRPM21", 531, 1, 8),
    ("XRPU17", 212, 1, 8),
    ("XRPU18", 284, 1, 8),
    ("XRPU19", 337, 1, 8),
    ("XRPU20", 396, 1, 8),
    ("XRPU21", 568, 1, 8),
    ("XRPUSD", 377, 1, 4),
    ("XRPZ17", 228, 1, 8),
    ("XRPZ18", 301, 1, 8),
    ("XRPZ19", 347, 1, 8),
    ("XRPZ20", 425, 1, 8),
    ("XRPZ21", 636, 1, 8),
    ("XTZUSDTH21", 466, 5, 4),
    ("XTZUSDTZ20", 434, 5, 4),
    ("XTZZ17", 215, 1, 6),
    ("YFIUSDTH21", 468, 5, 1),
    ("YFIUSDTZ20", 452, 5, 1),
    ("ZECH17", 159, 1, 6),
    ("ZECH18", 250, 1, 6),
    ("ZECM17", 176, 1, 6),
    ("ZECU17", 207, 1, 6),
    ("ZECZ16", 135, 1, 6),
    ("ZECZ17", 223, 1, 6)
]

/-- `SYMBOL_INDEX_AND_TICK_SIZE_MAP.get(symbol)`, yielding the index
and the tick size. -/
def lookupSymbol (symbol : String) : Option (Nat × ℚ) :=
  (SYMBOL_INDEX_AND_TICK_SIZE_MAP.lookup symbol).map
    (fun e => (e.1, tickOf e.2.1 e.2.2))

/-- Rust `as usize` applied to a non-NaN `f64`: truncate toward zero
and saturate at zero from below.  For `x ≥ 0` this is `⌊x⌋`; for
`x < 0` both truncation-then-saturation and `Int.toNat ∘ floor`
yield `0`. -/
def f64_as_usize (x : ℚ) : Nat :=
  Int.toNat ⌊x⌋

/-- bitmex `id_to_price`:
`price = (100000000 * symbolIdx - ID) * tickSize`; panics when the
symbol is not in the table. -/
def id_to_price (symbol : String) (id : Nat) : ROut ℚ :=
  match lookupSymbol symbol with
  | none => ROut.panicked "called Option::unwrap() on a None value"
  | some (index, tick_size) =>
      ROut.ok ((100000000 * (index : ℚ) - (id : ℚ)) * tick_size)

/-- bitmex `price_to_id`:
`ID = (100000000 * symbolIdx) - (price / tickSize)`, computed in
floating point and cast with `as usize`; panics when the symbol is
not in the table. -/
def price_to_id (symbol : String) (price : ℚ) : ROut Nat :=
  match lookupSymbol symbol with
  | none => ROut.panicked "called Option::unwrap() on a None value"
  | some (index, tick_size) =>
      ROut.ok (f64_as_usize (100000000 * (index : ℚ) - price / tick_size))

end Bitmex

namespace Js

/-!
A model of parsed JSON values (`serde_json::Value`), with numbers as
exact rationals.  The raw-text-to-value stage of serde_json is not
this repository's code; the parsers are embedded from the parsed
value onwards, and the per-struct serde derives (field extraction and
shape checks) are embedded explicitly below.
-/

/-- `serde_json::Value`. -/
inductive Json where
  | null
  | bool (b : Bool)
  | num (q : ℚ)
  | str (s : String)
  | arr (elems : List Json)
  | obj (fields : List (String × Json))

/-- `Map::get` on a parsed JSON object. -/
def getField (fields : List (String × Json)) (key : String) : Option Json :=
  fields.lookup key

/-- `Value::as_str`. -/
def Json.asStr : Json → Option String
  | .str s => some s
  | _ => none

/-- Deserializing an `i64` field: the JSON number must be an integer
within the 64-bit signed range. -/
def Json.asI64 : Json → Option Int
  | .num q =>
      if q.den = 1 ∧ -(2 ^ 63) ≤ q.num ∧ q.num < 2 ^ 63 then some q.num
      else none
  | _ => none

/-- Deserializing `[String; 2]`: a JSON array of exactly two strings. -/
def decodeString2 : Json → Option (String × String)
  | .arr [.str a, .str b] => some (a, b)
  | _ => none

/-- Deserializing `[String; 3]`: a JSON array of exactly three
strings. -/
def decodeString3 : Json → Option (String × String × String)
  | .arr [.str a, .str b, .str c] => some (a, b, c)
  | _ => none

/-- Deserializing `Vec<T>` given a decoder for `T`. -/
def decodeListWith (f : Json → Option α) : Json → Option (List α)
  | .arr l => l.mapM f
  | _ => none

end Js

namespace CoinbasePro

open Js OrderSerde

/-!
Embedding of the coinbase_pro parser
(crypto-msg-parser/src/exchanges/coinbase_pro.rs).

The two external text-level primitives — chrono
`DateTime::parse_from_rfc3339` composed with `timestamp_millis`, and
`str::parse::<f64>` — are passed as parameters `rfc3339` and
`parseF64`; concrete executable models of both are defined further
below for use at concrete inputs.
-/

/-- `SpotTradeMsg` after serde deserialization (the `extra` flattened
map collects any remaining fields and never fails, so it is not
carried). -/
structure SpotTradeMsg where
  type_ : String
  trade_id : Int
  sequence : Int
  maker_order_id : String
  taker_order_id : String
  time : String
  product_id : String
  size : String
  price : String
  side : String

/-- `OrderbookSnapshotMsg` after serde deserialization. -/
structure OrderbookSnapshotMsg where
  type_ : String
  product_id : String
  asks : List (String × String)
  bids : List (String × String)

/-- `OrderbookUpdateMsg` after serde deserialization. -/
structure OrderbookUpdateMsg where
  type_ : String
  product_id : String
  time : String
  changes : List (String × String × String)

/-- serde deserialization of `SpotTradeMsg` from a JSON value:
every named field must be present with the right type, any extra
fields are collected by the flattened map. -/
def decodeSpotTradeMsg (msg : Json) : Option SpotTradeMsg :=
  match msg with
  | .obj fields => do
      let t ← (getField fields "type").bind Json.asStr
      let tid ← (getField fields "trade_id").bind Json.asI64
      let seq ← (getField fields "sequence").bind Json.asI64
      let mk ← (getField fields "maker_order_id").bind Json.asStr
      let tk ← (getField fields "taker_order_id").bind Json.asStr
      let time ← (getField fields "time").bind Json.asStr
      let pid ← (getField fields "product_id").bind Json.asStr
      let size ← (getField fields "size").bind Json.asStr
      let price ← (getField fields "price").bind Json.asStr
      let side ← (getField fields "side").bind Json.asStr
      some ⟨t, tid, seq, mk, tk, time, pid, size, price, side⟩
  | _ => none

/-- serde deserialization of `OrderbookSnapshotMsg` from a JSON
value. -/
def decodeOrderbookSnapshotMsg (msg : Json) : Option OrderbookSnapshotMsg :=
  match msg with
  | .obj fields => do
      let t ← (getField fields "type").bind Json.asStr
      let pid ← (getField fields "product_id").bind Json.asStr
      let asks ← (getField fields "asks").bind (decodeListWith decodeString2)
      let bids ← (getField fields "bids").bind (decodeListWith decodeString2)
      some ⟨t, pid, asks, bids⟩
  | _ => none

/-- serde deserialization of `OrderbookUpdateMsg` from a JSON value. -/
def decodeOrderbookUpdateMsg (msg : Json) : Option OrderbookUpdateMsg :=
  match msg with
  | .obj fields => do
      let t ← (getField fields "type").bind Json.asStr
      let pid ← (getField fields "product_id").bind Json.asStr
      let time ← (getField fields "time").bind Json.asStr
      let changes ← (getField fields "changes").bind (decodeListWith decodeString3)
      some ⟨t, pid, time, changes⟩
  | _ => none

/-- Splitting a character list at every dash. -/
def splitOnDash : List Char → List (List Char)
  | [] => [[]]
  | c :: rest =>
      match splitOnDash rest with
      | [] => [[]]
      | g :: gs => if c = '-' then [] :: g :: gs else (c :: g) :: gs

/-- Modelled from the spec: `crypto_pair::normalize_pair(symbol,
"coinbase_pro")` is not under src/ (the crypto-pair sources present
contain only deribit and ftx).  The spec defines a Pair as the
canonical `BASE/QUOTE` string and requires every symbol that reaches
an output record to normalize to exactly one Pair, failing otherwise;
coinbase product ids are `BASE-QUOTE`. -/
def coinbase_normalize_pair (symbol : String) : Option String :=
  match splitOnDash symbol.data with
  | [base, q] => some (String.mk base ++ "/" ++ String.mk q)
  | _ => none

/-- The normalized trade record. -/
structure TradeMsg where
  exchange : String
  market_type : MarketType
  symbol : String
  pair : String
  msg_type : MessageType
  timestamp : Int
  price : ℚ
  quantity_base : ℚ
  quantity_quote : ℚ
  quantity_contract : Option ℚ
  side : TradeSide
  trade_id : String
  json : Json

/-- The normalized order-book record. -/
structure OrderBookMsg where
  exchange : String
  market_type : MarketType
  symbol : String
  pair : String
  msg_type : MessageType
  timestamp : Int
  seq_id : Option Int
  prev_seq_id : Option Int
  asks : List Order
  bids : List Order
  snapshot : Bool
  json : Json

/-- Sequencing a fallible element computation over a list, stopping at
the first `err` or panic (Rust `map(..).collect()` with panics inside
the closure). -/
def mapROut (f : α → ROut β) : List α → ROut (List β)
  | [] => ROut.ok []
  | a :: rest =>
      match f a with
      | ROut.ok b =>
          match mapROut f rest with
          | ROut.ok bs => ROut.ok (b :: bs)
          | ROut.err e => ROut.err e
          | ROut.panicked m => ROut.panicked m
      | ROut.err e => ROut.err e
      | ROut.panicked m => ROut.panicked m

/-- coinbase_pro `parse_trade`: serde failures are returned with the
question-mark operator; the timestamp and the two float fields are
then converted with `unwrap`, and the pair with `unwrap`. -/
def parse_trade (rfc3339 : String → Option Int) (parseF64 : String → Option ℚ)
    (market_type : MarketType) (msg : Json) : ROut (List TradeMsg) :=
  match decodeSpotTradeMsg msg with
  | none => ROut.err "invalid SpotTradeMsg"
  | some raw_trade =>
      match rfc3339 raw_trade.time with
      | none => ROut.panicked "called Result::unwrap() on an Err value"
      | some timestamp =>
          match parseF64 raw_trade.price with
          | none => ROut.panicked "called Result::unwrap() on an Err value"
          | some price =>
              match parseF64 raw_trade.size with
              | none => ROut.panicked "called Result::unwrap() on an Err value"
              | some quantity =>
                  match coinbase_normalize_pair raw_trade.product_id with
                  | none => ROut.panicked "called Option::unwrap() on a None value"
                  | some pair =>
                      ROut.ok [{
                        exchange := "coinbase_pro"
                        market_type := market_type
                        symbol := raw_trade.product_id
                        pair := pair
                        msg_type := MessageType.Trade
                        timestamp := timestamp
                        price := price
                        quantity_base := quantity
                        quantity_quote := price * quantity
                        quantity_contract := none
                        side := if raw_trade.side == "sell" then TradeSide.Sell
                                else TradeSide.Buy
                        trade_id := toString raw_trade.trade_id
                        json := msg
                      }]

/-- coinbase_pro `parse_order`: both strings are converted with
`parse::<f64>().unwrap()`. -/
def parse_order (parseF64 : String → Option ℚ) (raw_order : String × String) :
    ROut Order :=
  match parseF64 raw_order.1 with
  | none => ROut.panicked "called Result::unwrap() on an Err value"
  | some price =>
      match parseF64 raw_order.2 with
      | none => ROut.panicked "called Result::unwrap() on an Err value"
      | some quantity_base =>
          ROut.ok ⟨price, quantity_base, price * quantity_base, none⟩

/-- coinbase_pro `parse_change`: like `parse_order` on the last two
components of a `[side, price, size]` triple. -/
def parse_change (parseF64 : String → Option ℚ)
    (raw_order : String × String × String) : ROut Order :=
  parse_order parseF64 (raw_order.2.1, raw_order.2.2)

/-- coinbase_pro `parse_l2`.  The `snapshot` flag is read from the
`type` field with `get("type").unwrap().as_str().unwrap()`; in the
snapshot branch the timestamp comes from the caller via
`timestamp.expect(...)`, in the update branch from the message's
`time` field via `parse_from_rfc3339(..).unwrap()`.  The struct
literal evaluates its fields in source order, so the timestamp is
produced before the asks and bids are parsed. -/
def parse_l2 (rfc3339 : String → Option Int) (parseF64 : String → Option ℚ)
    (market_type : MarketType) (msg : Json) (timestamp : Option Int) :
    ROut (List OrderBookMsg) :=
  match msg with
  | .obj fields =>
      match getField fields "type" with
      | none => ROut.panicked "called Option::unwrap() on a None value"
      | some tv =>
          match Json.asStr tv with
          | none => ROut.panicked "called Option::unwrap() on a None value"
          | some tstr =>
              let snapshot := tstr == "snapshot"
              if snapshot then
                match decodeOrderbookSnapshotMsg msg with
                | none => ROut.err "invalid OrderbookSnapshotMsg"
                | some raw =>
                    match coinbase_normalize_pair raw.product_id with
                    | none => ROut.panicked "called Option::unwrap() on a None value"
                    | some pair =>
                        match timestamp with
                        | none =>
                            ROut.panicked
                              "Coinbase level2 snapshot messages don't have timestamp"
                        | some ts =>
                            match mapROut (parse_order parseF64) raw.asks with
                            | ROut.err e => ROut.err e
                            | ROut.panicked m => ROut.panicked m
                            | ROut.ok asks =>
                                match mapROut (parse_order parseF64) raw.bids with
                                | ROut.err e => ROut.err e
                                | ROut.panicked m => ROut.panicked m
                                | ROut.ok bids =>
                                    ROut.ok [{
                                      exchange := "coinbase_pro"
                                      market_type := market_type
                                      symbol := raw.product_id
                                      pair := pair
                                      msg_type := MessageType.L2Event
                                      timestamp := ts
                                      seq_id := none
                                      prev_seq_id := none
                                      asks := asks
                                      bids := bids
                                      snapshot := snapshot
                                      json := msg
                                    }]
              else
                match decodeOrderbookUpdateMsg msg with
                | none => ROut.err "invalid OrderbookUpdateMsg"
                | some raw =>
                    match coinbase_normalize_pair raw.product_id with
                    | none => ROut.panicked "called Option::unwrap() on a None value"
                    | some pair =>
                        match rfc3339 raw.time with
                        | none => ROut.panicked "called Result::unwrap() on an Err value"
                        | some ts =>
                            match mapROut (parse_change parseF64)
                                (raw.changes.filter (fun x => x.1 == "sell")) with
                            | ROut.err e => ROut.err e
                            | ROut.panicked m => ROut.panicked m
                            | ROut.ok asks =>
                                match mapROut (parse_change parseF64)
                                    (raw.changes.filter (fun x => x.1 == "buy")) with
                                | ROut.err e => ROut.err e
                                | ROut.panicked m => ROut.panicked m
                                | ROut.ok bids =>
                                    ROut.ok [{
                                      exchange := "coinbase_pro"
                                      market_type := market_type
                                      symbol := raw.product_id
                                      pair := pair
                                      msg_type := MessageType.L2Event
                                      timestamp := ts
                                      seq_id := none
                                      prev_seq_id := none
                                      asks := asks
                                      bids := bids
                                      snapshot := snapshot
                                      json := msg
                                    }]
  | _ => ROut.err "expected a JSON object"

end CoinbasePro

namespace Prim

open StringOps

/-!
Concrete executable models of the two external text primitives used
by the parsers.  They are parameters of the embedded parsers; these
models serve to run the parsers at concrete inputs.
-/

/-- Model of `str::parse::<f64>` on plain decimal notation
`[sign] digits [. digits]`, with the value exact (no rounding).
Returns `none` on anything else. -/
def parse_f64_dec (s : String) : Option ℚ :=
  let l := s.data
  let signRest : ℚ × List Char :=
    match l with
    | '-' :: r => (-1, r)
    | '+' :: r => (1, r)
    | _ => (1, l)
  let sign := signRest.1
  let rest := signRest.2
  let intPart := rest.takeWhile Char.isDigit
  let tail := rest.dropWhile Char.isDigit
  match parseDigits intPart with
  | none => none
  | some ip =>
      match tail with
      | [] => some (sign * ip)
      | '.' :: frac =>
          match parseDigits frac with
          | none => none
          | some fp =>
              some (sign * ((ip : ℚ) + (fp : ℚ) / (10 : ℚ) ^ frac.length))
      | _ => none

/-- Two decimal digits as a number, `none` otherwise. -/
def twoDigits : List Char → Option Nat
  | [a, b] => parseDigits [a, b]
  | _ => none

/-- Days from 1970-01-01 of the civil date `(y, m, d)` (proleptic
Gregorian; the standard days-from-civil computation). -/
def daysFromCivil (y : Int) (m d : Nat) : Int :=
  let yAdj : Int := if m ≤ 2 then y - 1 else y
  let era : Int := (if 0 ≤ yAdj then yAdj else yAdj - 399) / 400
  let yoe : Int := yAdj - era * 400
  let mp : Nat := (m + 9) % 12
  let doy : Int := (153 * (mp : Int) + 2) / 5 + (d : Int) - 1
  let doe : Int := yoe * 365 + yoe / 4 - yoe / 100 + doy
  era * 146097 + doe - 719468

/-- Number of days of month `m` in year `y`. -/
def daysInMonth (y : Int) (m : Nat) : Nat :=
  if m = 2 then
    if y % 4 = 0 ∧ (y % 100 ≠ 0 ∨ y % 400 = 0) then 29 else 28
  else if m = 4 ∨ m = 6 ∨ m = 9 ∨ m = 11 then 30
  else 31

/-- Model of chrono `DateTime::parse_from_rfc3339` composed with
`timestamp_millis`, on the restricted grammar
`YYYY-MM-DDThh:mm:ss[.fff]Z` (UTC offset only): milliseconds since
the Unix epoch, or `none` when the text does not match. -/
def parse_rfc3339_millis (s : String) : Option Int :=
  match s.data with
  | y1 :: y2 :: y3 :: y4 :: '-' :: m1 :: m2 :: '-' :: d1 :: d2 :: 'T' ::
    h1 :: h2 :: ':' :: mi1 :: mi2 :: ':' :: s1 :: s2 :: tail => do
      let y ← parseDigits [y1, y2, y3, y4]
      let mo ← twoDigits [m1, m2]
      let d ← twoDigits [d1, d2]
      let h ← twoDigits [h1, h2]
      let mi ← twoDigits [mi1, mi2]
      let sec ← twoDigits [s1, s2]
      let millis ←
        match tail with
        | ['Z'] => some 0
        | ['.', f1, f2, f3, 'Z'] => parseDigits [f1, f2, f3]
        | _ => none
      if 1 ≤ mo ∧ mo ≤ 12 ∧ 1 ≤ d ∧ d ≤ daysInMonth (y : Int) mo ∧
          h ≤ 23 ∧ mi ≤ 59 ∧ sec ≤ 59 then
        some ((daysFromCivil (y : Int) mo d * 86400 +
               (h : Int) * 3600 + (mi : Int) * 60 + (sec : Int)) * 1000 +
              (millis : Int))
      else none
  | _ => none

end Prim

namespace Examples

open Js

/-!
Concrete wire messages (already parsed into JSON values) used to run
the embedded parsers at specific inputs.
-/

/-- A coinbase_pro level2 snapshot message (empty book sides). -/
def snapshotMsg : Json :=
  .obj [("type", .str "snapshot"), ("product_id", .str "BTC-USD"),
        ("asks", .arr []), ("bids", .arr [])]

/-- A coinbase_pro match message whose `price` field does not parse
as a float. -/
def tradeMsgBadPrice : Json :=
  .obj [("type", .str "match"), ("trade_id", .num 123), ("sequence", .num 50),
        ("maker_order_id", .str "m1"), ("taker_order_id", .str "t1"),
        ("time", .str "2021-03-22T01:32:18.087Z"),
        ("product_id", .str "BTC-USD"), ("size", .str "0.1"),
        ("price", .str "abc"), ("side", .str "sell")]

/-- A coinbase_pro match message whose `time` field is not a valid
RFC-3339 timestamp. -/
def tradeMsgBadTime : Json :=
  .obj [("type", .str "match"), ("trade_id", .num 123), ("sequence", .num 50),
        ("maker_order_id", .str "m1"), ("taker_order_id", .str "t1"),
        ("time", .str "not-a-time"),
        ("product_id", .str "BTC-USD"), ("size", .str "0.1"),
        ("price", .str "51366.5"), ("side", .str "sell")]

/-- A message that is not a valid `SpotTradeMsg` envelope (the
required fields are missing). -/
def tradeMsgMissingFields : Json :=
  .obj [("type", .str "match")]

end Examples

/-!
## Helper lemmas
-/

theorem diffFold_fst (chs : List String) (p : Finset String × List String) :
    (chs.foldl
        (fun p ch => if ch ∈ p.1 then p else (insert ch p.1, p.2 ++ [ch])) p).1
      = p.1 ∪ chs.toFinset := by
  induction chs generalizing p with
  | nil => simp
  | cons ch rest ih =>
      simp only [List.foldl_cons]
      rw [ih]
      by_cases h : ch ∈ p.1
      · simp only [if_pos h, List.toFinset_cons, Finset.union_insert]
        rw [Finset.insert_eq_self.mpr (Finset.mem_union_left _ h)]
      · simp [if_neg h, List.toFinset_cons, Finset.insert_union,
              Finset.union_insert]

theorem diffFold_noop (chs : List String) (p : Finset String × List String)
    (h : ∀ ch ∈ chs, ch ∈ p.1) :
    chs.foldl
        (fun p ch => if ch ∈ p.1 then p else (insert ch p.1, p.2 ++ [ch])) p
      = p := by
  induction chs generalizing p with
  | nil => rfl
  | cons ch rest ih =>
      have hch : ch ∈ p.1 := h ch (List.mem_cons_self _ _)
      simp only [List.foldl_cons, if_pos hch]
      exact ih p (fun c hc => h c (List.mem_cons_of_mem _ hc))

theorem channelDiff_fst (st : Finset String) (chs : List String) :
    (WSClient.channelDiff st chs).1 = st ∪ chs.toFinset :=
  diffFold_fst chs (st, [])

theorem channelDiff_noop (st : Finset String) (chs : List String)
    (h : ∀ ch ∈ chs, ch ∈ st) :
    WSClient.channelDiff st chs = (st, []) :=
  diffFold_noop chs (st, []) h

theorem subscribe_or_unsubscribe_noop
    (c2c : List String → Bool → List String) (st : Finset String)
    (chs : List String) (sub : Bool) (h : ∀ ch ∈ chs, ch ∈ st) :
    WSClient.subscribe_or_unsubscribe c2c st chs sub = (st, []) := by
  unfold WSClient.subscribe_or_unsubscribe
  rw [channelDiff_noop st chs h]
  simp

/-!
## Claims
-/

/-- **C1.** The claim states that `unsubscribe` removes the requested
channels that are present in the subscribed-channel set and turns
exactly that removed diff into unsubscribe wire commands.  The code
disagrees: `subscribe_or_unsubscribe` runs `HashSet::insert` on both
paths, so unsubscribing channels that are currently subscribed
leaves the set unchanged and writes no wire command at all. -/
theorem unsubscribe_of_subscribed_is_noop
    (c2c : List String → Bool → List String) (st : Finset String)
    (chs : List String) (h : ∀ ch ∈ chs, ch ∈ st) :
    WSClient.unsubscribe c2c st chs = (st, []) :=
  subscribe_or_unsubscribe_noop c2c st chs false h

/-- **C1 witness**: a client subscribed to `trade.BTCUSD` that
unsubscribes from exactly that channel keeps it in the channel set
and sends nothing. -/
theorem unsubscribe_of_subscribed_is_noop_witness :
    WSClient.unsubscribe (fun chs _ => chs) {"trade.BTCUSD"} ["trade.BTCUSD"]
      = ({"trade.BTCUSD"}, []) :=
  unsubscribe_of_subscribed_is_noop _ _ _ (by simp)

/-- **C2.** The claim states that every send of the configured ping
payload increments `num_unanswered_ping` and that `run` exits once
the counter exceeds 5.  In the code no path increments the counter
(`Pong` stores 0, everything else leaves it): starting from the
initial state, the ping state after any trace — ping sends included —
is exactly the initial state, so the `> 5` exit check can never fire;
in particular six consecutive unanswered ping sends leave the counter
at 0 with the loop still running. -/
theorem run_ping_counter_never_incremented :
    (∀ tr : List (WSClient.InMsg × Bool),
        WSClient.runTrace WSClient.initPingState tr = WSClient.initPingState) ∧
    WSClient.runTrace WSClient.initPingState
        (List.replicate 6 (WSClient.InMsg.other, true))
      = WSClient.initPingState := by
  have hstep : ∀ (m : WSClient.InMsg) (b : Bool),
      WSClient.runIter WSClient.initPingState m b = WSClient.initPingState := by
    intro m b
    cases m <;> rfl
  constructor
  · intro tr
    induction tr with
    | nil => rfl
    | cons e rest ih =>
        show WSClient.runTrace
            (WSClient.runIter WSClient.initPingState e.1 e.2) rest
          = WSClient.initPingState
        rw [hstep e.1 e.2]
        exact ih
  · decide

/-- **C6.** Calling `subscribe` twice with the same channel list `S`
sends wire commands only the first time: after the first call every
channel of `S` is in the channel set, so the second call computes an
empty diff and writes nothing to the socket, leaving the set
unchanged. -/
theorem subscribe_twice_sends_once
    (c2c : List String → Bool → List String) (st : Finset String)
    (S : List String) :
    WSClient.channelDiff (WSClient.subscribe c2c st S).1 S
        = ((WSClient.subscribe c2c st S).1, []) ∧
    WSClient.subscribe c2c (WSClient.subscribe c2c st S).1 S
        = ((WSClient.subscribe c2c st S).1, []) := by
  have h1 : (WSClient.subscribe c2c st S).1 = st ∪ S.toFinset := by
    show (WSClient.subscribe_or_unsubscribe c2c st S true).1 = _
    unfold WSClient.subscribe_or_unsubscribe
    exact channelDiff_fst st S
  have hmem : ∀ ch ∈ S, ch ∈ (WSClient.subscribe c2c st S).1 := by
    intro ch hch
    rw [h1]
    exact Finset.mem_union_right _ (List.mem_toFinset.mpr hch)
  exact ⟨channelDiff_noop _ S hmem,
         subscribe_or_unsubscribe_noop c2c _ S true hmem⟩

/-- **C8.** On the inverse market types, gate `get_contract_value`
returns `Some(1.0)` for every pair, and okex `get_contract_value`
returns `Some(100.0)` for pairs starting with `BTC` and `Some(10.0)`
otherwise, independently of the contract-value table. -/
theorem inverse_contract_values
    (cv : MarketType → String → Option ℚ) (pair : String) :
    ContractValue.gate_get_contract_value cv MarketType.InverseSwap pair
        = ROut.ok (some 1) ∧
    ContractValue.gate_get_contract_value cv MarketType.InverseFuture pair
        = ROut.ok (some 1) ∧
    ContractValue.okex_get_contract_value cv MarketType.InverseSwap pair
        = ROut.ok (some (if ContractValue.startsWithBTC pair then 100 else 10)) ∧
    ContractValue.okex_get_contract_value cv MarketType.InverseFuture pair
        = ROut.ok (some (if ContractValue.startsWithBTC pair then 100 else 10)) :=
  ⟨rfl, rfl, rfl, rfl⟩

/-- **C9.** Serializing an `Order` and deserializing the result gives
back the same `Order`, both in the 3-element form (no contract
quantity) and in the 4-element form (with contract quantity). -/
theorem order_serde_roundtrip (o : OrderSerde.Order) :
    OrderSerde.deserialize (OrderSerde.serialize o) = ROut.ok o := by
  obtain ⟨p, qb, qq, qc⟩ := o
  cases qc with
  | none => simp [OrderSerde.serialize, OrderSerde.deserialize]
  | some qc =>
      simp only [OrderSerde.serialize, OrderSerde.deserialize]
      norm_num

/-- **C10.** `Order` deserialization from a numeric array: with at
least three numbers it succeeds, the first three numbers become
`price`, `quantity_base`, `quantity_quote`, and `quantity_contract`
is `Some` of the fourth exactly when the array has exactly four
elements; with fewer than three numbers the visitor indexes its
collected vector out of bounds and panics instead of returning a
deserialization error. -/
theorem order_deserialize_totality (p qb qq : ℚ) (rest : List ℚ)
    (vec : List ℚ) :
    (OrderSerde.deserialize (p :: qb :: qq :: rest)
        = ROut.ok { price := p, quantity_base := qb, quantity_quote := qq,
                    quantity_contract :=
                      if rest.length = 1 then rest.head? else none }) ∧
    (vec.length < 3 →
      OrderSerde.deserialize vec
        = ROut.panicked "index out of bounds: the len is less than 3") := by
  constructor
  · rcases rest with _ | ⟨x, rs⟩
    · simp [OrderSerde.deserialize]
    · rcases rs with _ | ⟨y, ys⟩
      · simp only [OrderSerde.deserialize]
        norm_num
      · simp only [OrderSerde.deserialize]
        norm_num
        omega
  · intro h
    unfold OrderSerde.deserialize
    rw [dif_neg (by omega)]

/-- **C10 witness**: `[5,6,7,8]` deserializes to an `Order` with
`quantity_contract = some 8`, and `[1,2]` panics. -/
theorem order_deserialize_totality_witness :
    (OrderSerde.deserialize [5, 6, 7, 8]
        = ROut.ok { price := 5, quantity_base := 6, quantity_quote := 7,
                    quantity_contract := some 8 }) ∧
    ([(1 : ℚ), 2].length < 3 ∧
      OrderSerde.deserialize [1, 2]
        = ROut.panicked "index out of bounds: the len is less than 3") := by
  refine ⟨?_, by simp, (order_deserialize_totality 0 0 0 [] [1, 2]).2 (by simp)⟩
  have h := (order_deserialize_totality 5 6 7 [8] []).1
  simpa using h

theorem lookup_mem {α β : Type} [BEq α] [LawfulBEq α]
    (l : List (α × β)) (k : α) (v : β) (h : List.lookup k l = some v) :
    (k, v) ∈ l := by
  induction l with
  | nil => simp [List.lookup] at h
  | cons e rest ih =>
      obtain ⟨k1, v1⟩ := e
      cases hbk : (k == k1) with
      | true =>
          simp only [List.lookup, hbk] at h
          obtain rfl : v1 = v := by exact Option.some.inj h
          obtain rfl : k = k1 := eq_of_beq hbk
          exact List.mem_cons_self _ _
      | false =>
          simp only [List.lookup, hbk] at h
          exact List.mem_cons_of_mem _ (ih h)

theorem table_tick_mant_pos :
    ∀ e ∈ Bitmex.SYMBOL_INDEX_AND_TICK_SIZE_MAP, 0 < e.2.2.1 := by decide

theorem tickOf_pos (m e : ℕ) (hm : 0 < m) : 0 < Bitmex.tickOf m e := by
  unfold Bitmex.tickOf
  have h1 : (0 : ℚ) < (m : ℚ) := by exact_mod_cast hm
  have h2 : (0 : ℚ) < (10 : ℚ) ^ e := by positivity
  exact div_pos h1 h2

theorem xbtusd_raw_lookup :
    Bitmex.SYMBOL_INDEX_AND_TICK_SIZE_MAP.lookup "XBTUSD" = some (88, 1, 2) := by
  decide

theorem ethz21_raw_lookup :
    Bitmex.SYMBOL_INDEX_AND_TICK_SIZE_MAP.lookup "ETHZ21" = some (634, 1, 5) := by
  decide

theorem xbtusd_lookupSymbol :
    Bitmex.lookupSymbol "XBTUSD" = some (88, Bitmex.tickOf 1 2) := by
  unfold Bitmex.lookupSymbol
  rw [xbtusd_raw_lookup]
  rfl

theorem ethz21_lookupSymbol :
    Bitmex.lookupSymbol "ETHZ21" = some (634, Bitmex.tickOf 1 5) := by
  unfold Bitmex.lookupSymbol
  rw [ethz21_raw_lookup]
  rfl

/-- The arithmetic core of the bitmex round trip: with a positive
tick `T` and a representable price (`0 ≤ p`, `p / T` at most the
integer id base `M`), converting the price to an id (floor and
`as usize` truncation) and back moves the price by strictly less
than one tick. -/
theorem roundtrip_core (M : ℤ) (T p : ℚ) (hT : 0 < T) (h0 : 0 ≤ p)
    (hle : p / T ≤ (M : ℚ)) :
    |((M : ℚ) - ((Int.toNat ⌊(M : ℚ) - p / T⌋ : ℕ) : ℚ)) * T - p| < T := by
  set y := p / T with hy
  have hy0 : 0 ≤ y := div_nonneg h0 hT.le
  have hX0 : 0 ≤ (M : ℚ) - y := by linarith
  have hfl : ⌊(M : ℚ) - y⌋ = M - ⌈y⌉ := by
    rw [show (M : ℚ) - y = -y + (M : ℤ) by ring,
        Int.floor_add_int, Int.floor_neg]
    ring
  have hnn : 0 ≤ ⌊(M : ℚ) - y⌋ := Int.floor_nonneg.mpr hX0
  have hcast : ((Int.toNat ⌊(M : ℚ) - y⌋ : ℕ) : ℚ) = ((M - ⌈y⌉ : ℤ) : ℚ) := by
    rw [← hfl]
    exact_mod_cast congrArg (fun z : ℤ => (z : ℚ)) (Int.toNat_of_nonneg hnn)
  have hp : y * T = p := div_mul_cancel₀ p hT.ne'
  have hq : ((M : ℚ) - ((Int.toNat ⌊(M : ℚ) - y⌋ : ℕ) : ℚ)) * T - p
      = ((⌈y⌉ : ℚ) - y) * T := by
    rw [hcast]
    push_cast
    rw [← hp]
    ring
  rw [hq]
  have h1 : y ≤ (⌈y⌉ : ℚ) := Int.le_ceil y
  have h2 : ((⌈y⌉ : ℚ)) < y + 1 := Int.ceil_lt_add_one y
  rw [abs_of_nonneg (mul_nonneg (by linarith) hT.le)]
  calc ((⌈y⌉ : ℚ) - y) * T < 1 * T :=
        mul_lt_mul_of_pos_right (by linarith) hT
    _ = T := one_mul T

/-- **C5.** bitmex `id_to_price` and `price_to_id` compute the
claimed formulas over the static table, every tick size in the table
is positive, the round trip moves a representable price by less than
one tick, and the two concrete evaluations of the claim hold. -/
theorem bitmex_id_price_roundtrip (s : String) (idx : ℕ) (tick : ℚ)
    (hs : Bitmex.lookupSymbol s = some (idx, tick)) :
    (∀ id : ℕ, Bitmex.id_to_price s id
        = ROut.ok ((10 ^ 8 * (idx : ℚ) - (id : ℚ)) * tick)) ∧
    (∀ (p : ℚ) (n : ℕ), 10 ^ 8 * (idx : ℚ) - p / tick = (n : ℚ) →
        Bitmex.price_to_id s p = ROut.ok n) ∧
    0 < tick ∧
    (∀ (p : ℚ) (n : ℕ), 0 ≤ p → p / tick ≤ 10 ^ 8 * (idx : ℚ) →
        Bitmex.price_to_id s p = ROut.ok n →
        ∃ q : ℚ, Bitmex.id_to_price s n = ROut.ok q ∧ |q - p| < tick) ∧
    Bitmex.id_to_price "XBTUSD" 8794863350 = ROut.ok (51366.5 : ℚ) ∧
    Bitmex.price_to_id "ETHZ21" (0.07369 : ℚ) = ROut.ok 63399992631 := by
  have hs0 : (Bitmex.SYMBOL_INDEX_AND_TICK_SIZE_MAP.lookup s).map
      (fun e => (e.1, Bitmex.tickOf e.2.1 e.2.2)) = some (idx, tick) := hs
  obtain ⟨⟨i0, m0, e0⟩, hl, heq⟩ := Option.map_eq_some'.mp hs0
  obtain ⟨rfl, rfl⟩ : i0 = idx ∧ Bitmex.tickOf m0 e0 = tick := by
    simpa [Prod.ext_iff] using heq
  have hm0 : 0 < m0 :=
    table_tick_mant_pos _ (lookup_mem _ _ _ hl)
  have htick : 0 < Bitmex.tickOf m0 e0 := tickOf_pos m0 e0 hm0
  have hten : ((10 : ℚ) ^ 8) = (100000000 : ℚ) := by norm_num
  refine ⟨?_, ?_, htick, ?_, ?_, ?_⟩
  · intro id
    simp only [Bitmex.id_to_price, hs]
    rw [hten]
  · intro p n h
    simp only [Bitmex.price_to_id, hs, Bitmex.f64_as_usize]
    rw [hten] at h
    rw [h, Int.floor_natCast, Int.toNat_natCast]
  · intro p n h0 hle hpn
    simp only [Bitmex.price_to_id, hs, Bitmex.f64_as_usize,
               ROut.ok.injEq] at hpn
    refine ⟨(100000000 * (i0 : ℚ) - (n : ℚ)) * Bitmex.tickOf m0 e0,
            by simp only [Bitmex.id_to_price, hs], ?_⟩
    subst hpn
    rw [hten] at hle
    have hM : ((100000000 * (i0 : ℕ) : ℤ) : ℚ) = 100000000 * (i0 : ℚ) := by
      push_cast
      ring
    have := roundtrip_core (100000000 * (i0 : ℕ) : ℤ)
      (Bitmex.tickOf m0 e0) p htick h0 (by rw [hM]; exact hle)
    rw [hM] at this
    exact this
  · simp only [Bitmex.id_to_price, xbtusd_lookupSymbol, Bitmex.tickOf]
    norm_num
  · simp only [Bitmex.price_to_id, ethz21_lookupSymbol, Bitmex.tickOf,
               Bitmex.f64_as_usize]
    norm_num
    rfl

/-- **C5 witness**: the theorem applied to `XBTUSD`, whose table
entry is `(88, 0.01)`. -/
theorem bitmex_id_price_roundtrip_witness :
    Bitmex.id_to_price "XBTUSD" 8794863350 = ROut.ok (51366.5 : ℚ) :=
  (bitmex_id_price_roundtrip "XBTUSD" 88 (Bitmex.tickOf 1 2)
      xbtusd_lookupSymbol).2.2.2.2.1

theorem mkData (s : String) : String.mk s.data = s := rfl

theorem endsWithL_append (a b : List Char) :
    StringOps.endsWithL (a ++ b) b = true := by
  unfold StringOps.endsWithL
  rw [List.length_append,
      show a.length + b.length - b.length = a.length from by omega,
      List.drop_left]
  simp

theorem dropSuffixL_append (a b : List Char) :
    StringOps.dropSuffixL (a ++ b) b = a := by
  unfold StringOps.dropSuffixL
  rw [List.length_append,
      show a.length + b.length - b.length = a.length from by omega,
      List.take_left]

theorem endsWithL_true_iff (s suf : List Char) :
    StringOps.endsWithL s suf = true ↔
      suf.length ≤ s.length ∧ s.drop (s.length - suf.length) = suf := by
  unfold StringOps.endsWithL
  simp [Bool.and_eq_true, decide_eq_true_eq]

theorem lastN_of_endsWith (s suf : List Char) (n : Nat)
    (h : StringOps.endsWithL s suf = true) (hn : n ≤ suf.length) :
    StringOps.lastN s n = StringOps.lastN suf n := by
  obtain ⟨hle, hdrop⟩ := (endsWithL_true_iff s suf).mp h
  unfold StringOps.lastN
  rw [← hdrop, List.length_drop, List.drop_drop]
  congr 1
  omega

theorem mem_of_endsWith (s suf : List Char) (c : Char)
    (h : StringOps.endsWithL s suf = true) (hc : c ∈ suf) : c ∈ s := by
  obtain ⟨hle, hdrop⟩ := (endsWithL_true_iff s suf).mp h
  rw [← hdrop] at hc
  exact List.drop_subset _ _ hc

theorem findDashIdx_concat (pre rest : List Char) (h : '-' ∉ pre) :
    Deribit.findDashIdx (pre ++ '-' :: rest) = some pre.length := by
  induction pre with
  | nil => simp [Deribit.findDashIdx]
  | cons c cs ih =>
      have hc : ¬ c = '-' := fun hh => h (hh ▸ List.mem_cons_self _ _)
      simp [Deribit.findDashIdx, hc,
            ih (fun hm => h (List.mem_cons_of_mem _ hm))]

theorem findDashIdx_none (s : List Char) (h : '-' ∉ s) :
    Deribit.findDashIdx s = none := by
  induction s with
  | nil => rfl
  | cons c cs ih =>
      have hc : ¬ c = '-' := fun hh => h (hh ▸ List.mem_cons_self _ _)
      simp [Deribit.findDashIdx, hc,
            ih (fun hm => h (List.mem_cons_of_mem _ hm))]

/-- **C7 (amended).** deribit `normalize_pair` maps `BASE-PERPETUAL`
to `BASE/USD`; maps a symbol of the form `PRE-REST` (with `PRE`
dash-free) longer than 7 characters whose final two characters parse
as an `i64` to `PRE/USD`; panics on a symbol longer than 7
characters whose final two characters parse as an `i64` but which
contains no dash at all; maps a symbol `PRE-REST` ending in `-P` or
`-C` to `PRE/PRE`; returns `None` on every other symbol; and maps
the claim's three examples as stated. -/
theorem deribit_normalize_pair_cases :
    (∀ base : String, Deribit.normalize_pair (base ++ "-PERPETUAL")
        = ROut.ok (some (base ++ "/USD"))) ∧
    (∀ pre rest : String, '-' ∉ pre.data →
        7 < pre.length + 1 + rest.length →
        StringOps.i64_parse_ok
            (StringOps.lastN (pre.data ++ '-' :: rest.data) 2) = true →
        Deribit.normalize_pair (pre ++ "-" ++ rest)
          = ROut.ok (some (pre ++ "/USD"))) ∧
    (∀ s : String, '-' ∉ s.data → 7 < s.length →
        StringOps.i64_parse_ok (StringOps.lastN s.data 2) = true →
        Deribit.normalize_pair s
          = ROut.panicked "called Option::unwrap() on a None value") ∧
    (∀ pre rest : String, '-' ∉ pre.data →
        (StringOps.endsWithL (pre.data ++ '-' :: rest.data) ['-', 'P'] = true ∨
         StringOps.endsWithL (pre.data ++ '-' :: rest.data) ['-', 'C'] = true) →
        Deribit.normalize_pair (pre ++ "-" ++ rest)
          = ROut.ok (some (pre ++ "/" ++ pre))) ∧
    (∀ s : String,
        StringOps.endsWithL s.data "-PERPETUAL".data = false →
        ¬(7 < s.length ∧
            StringOps.i64_parse_ok (StringOps.lastN s.data 2) = true) →
        StringOps.endsWithL s.data "-P".data = false →
        StringOps.endsWithL s.data "-C".data = false →
        Deribit.normalize_pair s = ROut.ok none) ∧
    Deribit.normalize_pair "BTC-PERPETUAL" = ROut.ok (some "BTC/USD") ∧
    Deribit.normalize_pair "BTC-28JUN24" = ROut.ok (some "BTC/USD") ∧
    Deribit.normalize_pair "BTC-28JUN24-60000-C" = ROut.ok (some "BTC/BTC") := by
  refine ⟨?_, ?_, ?_, ?_, ?_, by decide, by decide, by decide⟩
  · intro base
    simp only [Deribit.normalize_pair, String.data_append]
    rw [if_pos (endsWithL_append base.data "-PERPETUAL".data),
        dropSuffixL_append, mkData]
  · intro pre rest hpre hlen hparse
    have hdata : (pre ++ "-" ++ rest).data = pre.data ++ '-' :: rest.data := by
      rw [String.data_append, String.data_append]
      simp
    have hnoperp : StringOps.endsWithL (pre.data ++ '-' :: rest.data)
        "-PERPETUAL".data ≠ true := by
      intro hcon
      have h2 := lastN_of_endsWith _ _ 2 hcon (by decide)
      rw [show StringOps.lastN "-PERPETUAL".data 2 = ['A', 'L'] from rfl] at h2
      rw [h2] at hparse
      exact absurd hparse (by decide)
    have hlen2 : 7 < (pre.data ++ '-' :: rest.data).length := by
      rw [List.length_append, List.length_cons]
      have h1 : pre.length = pre.data.length := rfl
      have h2 : rest.length = rest.data.length := rfl
      omega
    simp only [Deribit.normalize_pair, hdata]
    rw [if_neg hnoperp,
        if_pos (show (decide (7 < (pre.data ++ '-' :: rest.data).length) &&
            StringOps.i64_parse_ok
              (StringOps.lastN (pre.data ++ '-' :: rest.data) 2)) = true from by
          simp only [Bool.and_eq_true, decide_eq_true_eq]
          exact ⟨hlen2, hparse⟩),
        findDashIdx_concat pre.data rest.data hpre]
    simp only [List.take_left, mkData]
  · intro s hdash hlen hparse
    have hnoperp : StringOps.endsWithL s.data "-PERPETUAL".data ≠ true := by
      intro hcon
      exact hdash (mem_of_endsWith _ _ '-' hcon (by decide))
    simp only [Deribit.normalize_pair]
    rw [if_neg hnoperp,
        if_pos (show (decide (7 < s.data.length) &&
            StringOps.i64_parse_ok (StringOps.lastN s.data 2)) = true from by
          have h1 : s.length = s.data.length := rfl
          simp only [Bool.and_eq_true, decide_eq_true_eq]
          exact ⟨by omega, hparse⟩),
        findDashIdx_none s.data hdash]
  · intro pre rest hpre hPC
    have hdata : (pre ++ "-" ++ rest).data = pre.data ++ '-' :: rest.data := by
      rw [String.data_append, String.data_append]
      simp
    have hlast : StringOps.lastN (pre.data ++ '-' :: rest.data) 2 = ['-', 'P'] ∨
        StringOps.lastN (pre.data ++ '-' :: rest.data) 2 = ['-', 'C'] := by
      rcases hPC with h | h
      · exact Or.inl (lastN_of_endsWith _ _ 2 h (by decide))
      · exact Or.inr (lastN_of_endsWith _ _ 2 h (by decide))
    have hnoperp : StringOps.endsWithL (pre.data ++ '-' :: rest.data)
        "-PERPETUAL".data ≠ true := by
      intro hcon
      have h2 := lastN_of_endsWith _ _ 2 hcon (by decide)
      rw [show StringOps.lastN "-PERPETUAL".data 2 = ['A', 'L'] from rfl] at h2
      rcases hlast with h | h <;> rw [h2] at h <;> exact absurd h (by decide)
    have hnofut : ¬((decide (7 < (pre.data ++ '-' :: rest.data).length) &&
        StringOps.i64_parse_ok
          (StringOps.lastN (pre.data ++ '-' :: rest.data) 2)) = true) := by
      rcases hlast with h | h <;>
        simp [h, show StringOps.i64_parse_ok ['-', 'P'] = false from by decide,
              show StringOps.i64_parse_ok ['-', 'C'] = false from by decide]
    simp only [Deribit.normalize_pair, hdata]
    rw [if_neg hnoperp, if_neg hnofut,
        if_pos (show (StringOps.endsWithL (pre.data ++ '-' :: rest.data)
            "-P".data ||
          StringOps.endsWithL (pre.data ++ '-' :: rest.data) "-C".data)
            = true from by
          rcases hPC with h | h <;> simp [h]),
        findDashIdx_concat pre.data rest.data hpre]
    simp only [List.take_left, mkData]
  · intro s h1 h2 h3 h4
    simp only [Deribit.normalize_pair]
    rw [if_neg (by simp [h1]),
        if_neg (show ¬((decide (7 < s.data.length) &&
            StringOps.i64_parse_ok (StringOps.lastN s.data 2)) = true) from by
          have h5 : s.length = s.data.length := rfl
          simp only [Bool.and_eq_true, decide_eq_true_eq]
          intro hcon
          exact h2 ⟨by omega, hcon.2⟩),
        if_neg (by simp [h3, h4])]

/-- **C7 counterexample**: `"ABCD1234"` is longer than 7 characters
and ends in two numeric characters, so the claim says it maps to a
`BASE/USD` pair — but it contains no dash, and the code panics in
`find('-').unwrap()` instead of returning any value. -/
theorem deribit_normalize_pair_dashless_panics :
    Deribit.normalize_pair "ABCD1234"
      = ROut.panicked "called Option::unwrap() on a None value" := by
  decide

/-- **C7 witness**: the amended theorem applied at `"BTC"`-based and
dashless symbols. -/
theorem deribit_normalize_pair_cases_witness :
    Deribit.normalize_pair ("BTC" ++ "-PERPETUAL")
        = ROut.ok (some ("BTC" ++ "/USD")) ∧
    Deribit.normalize_pair "ETHUSD99"
        = ROut.panicked "called Option::unwrap() on a None value" :=
  ⟨deribit_normalize_pair_cases.1 "BTC",
   deribit_normalize_pair_cases.2.2.1 "ETHUSD99" (by decide) (by decide)
     (by decide)⟩

/-- **C3 (amended).** For a well-formed coinbase_pro level2 snapshot
message (the envelope decodes, the symbol normalizes, the levels
parse), `parse_l2` without a caller-supplied timestamp panics with
"Coinbase level2 snapshot messages don't have timestamp" — it does
not return an error value to the caller — and with a caller-supplied
timestamp returns exactly one `OrderBookMsg` with `snapshot = true`
carrying that timestamp. -/
theorem parse_l2_snapshot_timestamp_behavior
    (rfc : String → Option Int) (pf : String → Option ℚ)
    (mt : MarketType) (fields : List (String × Js.Json))
    (raw : CoinbasePro.OrderbookSnapshotMsg) (pair : String)
    (asksL bidsL : List OrderSerde.Order) (ts : Int)
    (htype : Js.getField fields "type" = some (Js.Json.str "snapshot"))
    (hdec : CoinbasePro.decodeOrderbookSnapshotMsg (Js.Json.obj fields)
        = some raw)
    (hnp : CoinbasePro.coinbase_normalize_pair raw.product_id = some pair)
    (ha : CoinbasePro.mapROut (CoinbasePro.parse_order pf) raw.asks
        = ROut.ok asksL)
    (hb : CoinbasePro.mapROut (CoinbasePro.parse_order pf) raw.bids
        = ROut.ok bidsL) :
    CoinbasePro.parse_l2 rfc pf mt (Js.Json.obj fields) none
        = ROut.panicked
            "Coinbase level2 snapshot messages don't have timestamp" ∧
    ∃ obm : CoinbasePro.OrderBookMsg,
      CoinbasePro.parse_l2 rfc pf mt (Js.Json.obj fields) (some ts)
          = ROut.ok [obm] ∧
      obm.snapshot = true ∧ obm.timestamp = ts := by
  constructor
  · simp only [CoinbasePro.parse_l2, htype, Js.Json.asStr]
    rw [if_pos (show ("snapshot" == "snapshot") = true from rfl)]
    simp only [hdec, hnp]
  · simp only [CoinbasePro.parse_l2, htype, Js.Json.asStr]
    rw [if_pos (show ("snapshot" == "snapshot") = true from rfl)]
    simp only [hdec, hnp, ha, hb]
    exact ⟨_, rfl, rfl, rfl⟩

/-- **C3 counterexample**: on a concrete snapshot message with no
caller-supplied timestamp, `parse_l2` panics (`timestamp.expect`)
instead of returning an error value to the caller. -/
theorem parse_l2_snapshot_no_timestamp_is_panic :
    CoinbasePro.parse_l2 Prim.parse_rfc3339_millis Prim.parse_f64_dec
        MarketType.Spot Examples.snapshotMsg none
      = ROut.panicked
          "Coinbase level2 snapshot messages don't have timestamp" := rfl

/-- **C3 witness**: the amended theorem applied to a concrete
snapshot message and the timestamp `1616376738087`. -/
theorem parse_l2_snapshot_timestamp_behavior_witness :
    CoinbasePro.parse_l2 Prim.parse_rfc3339_millis Prim.parse_f64_dec
        MarketType.Spot Examples.snapshotMsg none
        = ROut.panicked
            "Coinbase level2 snapshot messages don't have timestamp" ∧
    ∃ obm : CoinbasePro.OrderBookMsg,
      CoinbasePro.parse_l2 Prim.parse_rfc3339_millis Prim.parse_f64_dec
          MarketType.Spot Examples.snapshotMsg (some 1616376738087)
          = ROut.ok [obm] ∧
      obm.snapshot = true ∧ obm.timestamp = 1616376738087 :=
  parse_l2_snapshot_timestamp_behavior Prim.parse_rfc3339_millis
    Prim.parse_f64_dec MarketType.Spot
    [("type", Js.Json.str "snapshot"), ("product_id", Js.Json.str "BTC-USD"),
     ("asks", Js.Json.arr []), ("bids", Js.Json.arr [])]
    ⟨"snapshot", "BTC-USD", [], []⟩ "BTC/USD" [] [] 1616376738087
    rfl rfl rfl rfl rfl

/-- **C4 (amended).** In coinbase_pro `parse_trade`, a message that
does not decode as the expected envelope (unknown shape or missing
required field) is returned to the caller as an error value; but an
unparseable timestamp or an unparseable float field causes a panic
(`unwrap`), not an error return. -/
theorem parse_trade_err_vs_panic
    (rfc : String → Option Int) (pf : String → Option ℚ)
    (mt : MarketType) (msg : Js.Json) :
    (CoinbasePro.decodeSpotTradeMsg msg = none →
        CoinbasePro.parse_trade rfc pf mt msg
          = ROut.err "invalid SpotTradeMsg") ∧
    (∀ raw : CoinbasePro.SpotTradeMsg,
        CoinbasePro.decodeSpotTradeMsg msg = some raw →
        rfc raw.time = none →
        CoinbasePro.parse_trade rfc pf mt msg
          = ROut.panicked "called Result::unwrap() on an Err value") ∧
    (∀ (raw : CoinbasePro.SpotTradeMsg) (ts : Int),
        CoinbasePro.decodeSpotTradeMsg msg = some raw →
        rfc raw.time = some ts → pf raw.price = none →
        CoinbasePro.parse_trade rfc pf mt msg
          = ROut.panicked "called Result::unwrap() on an Err value") := by
  refine ⟨?_, ?_, ?_⟩
  · intro h
    simp only [CoinbasePro.parse_trade, h]
  · intro raw h1 h2
    simp only [CoinbasePro.parse_trade, h1, h2]
  · intro raw ts h1 h2 h3
    simp only [CoinbasePro.parse_trade, h1, h2, h3]

/-- **C4 counterexample**: a concrete match message whose `price`
field is the unparseable float `"abc"` makes `parse_trade` panic
instead of returning an error value to the caller. -/
theorem parse_trade_unparseable_float_is_panic :
    CoinbasePro.parse_trade Prim.parse_rfc3339_millis Prim.parse_f64_dec
        MarketType.Spot Examples.tradeMsgBadPrice
      = ROut.panicked "called Result::unwrap() on an Err value" := rfl

/-- **C4 witness**: the amended theorem applied to a message with
missing fields (error) and to a message with an unparseable
timestamp (panic). -/
theorem parse_trade_err_vs_panic_witness :
    CoinbasePro.parse_trade Prim.parse_rfc3339_millis Prim.parse_f64_dec
        MarketType.Spot Examples.tradeMsgMissingFields
        = ROut.err "invalid SpotTradeMsg" ∧
    CoinbasePro.parse_trade Prim.parse_rfc3339_millis Prim.parse_f64_dec
        MarketType.Spot Examples.tradeMsgBadTime
        = ROut.panicked "called Result::unwrap() on an Err value" :=
  ⟨(parse_trade_err_vs_panic Prim.parse_rfc3339_millis Prim.parse_f64_dec
      MarketType.Spot Examples.tradeMsgMissingFields).1 rfl,
   (parse_trade_err_vs_panic Prim.parse_rfc3339_millis Prim.parse_f64_dec
      MarketType.Spot Examples.tradeMsgBadTime).2.1
     ⟨"match", 123, 50, "m1", "t1", "not-a-time", "BTC-USD", "0.1",
      "51366.5", "sell"⟩ rfl rfl⟩
